import Mathlib

/-!
Verification of the radio-station download pipeline (streamrip-dev) against its
natural-language specification.  The definitions below are a shallow embedding of
the Python sources:

* `db.py` — the idempotency store (`Dummy`, `DatabaseBase.add`, `Downloads`,
  `Failed`, `Database`);
* `sse_server.py` / `admin_service/sse_manager.py` — the progress event bus
  (`TrackEvent`, `PlaylistEvent`, `SearchEvent`, `SSEManager.add_client`,
  `SSEManager._update_playlist_stats`, `update_track`, `update_playlist`);
* `media/track.py` — `PendingTrack.resolve` and `Track.download`;
* `media/playlist.py` — `PendingPlaylistTrack.resolve`, `Playlist.preprocess`,
  `Playlist.postprocess`, `PendingLastfmPlaylist.resolve` and `_search_track`;
* `progress.py` — the progress callback (`get_progress_callback`,
  `emit_track_error`, `emit_track_found`).

Timestamps (`time.time()`) are modelled as explicit `Nat` clock arguments, and
progress percentages as `Nat` percent values; neither is load-bearing for any
claim.  Python exceptions are modelled with `Except`, and the event loop is
modelled by recording published events in program order.
-/

namespace RadioStation

/-! ### Progress events (sse_server.py lines 21-64) -/

/-- `TrackEvent` dataclass of sse_server.py.  `progress` is a percent. -/
structure TrackEvent where
  track_id : String
  title : String
  artist : String
  status : String
  progress : Nat := 0
  error_message : Option String := none
  playlist_id : Option String := none
  timestamp : Nat := 0
deriving DecidableEq, Repr

/-- `PlaylistEvent` dataclass of sse_server.py (the spec calls it `CollectionEvent`). -/
structure PlaylistEvent where
  playlist_id : String
  playlist_name : String
  status : String
  total_tracks : Nat := 0
  found_tracks : Nat := 0
  failed_tracks : Nat := 0
  completed_tracks : Nat := 0
  timestamp : Nat := 0
deriving DecidableEq, Repr

/-- `SearchEvent` dataclass of sse_server.py. -/
structure SearchEvent where
  playlist_id : String
  total : Nat
  found : Nat
  failed : Nat
  current_query : String := ""
  timestamp : Nat := 0
deriving DecidableEq, Repr

/-- A broadcast frame: the `(event_type, data)` pairs put on client queues by
`SSEManager.broadcast_event`. -/
inductive BusEvent where
  | playlist_update (p : PlaylistEvent)
  | track_update (t : TrackEvent)
  | search_update (s : SearchEvent)
deriving DecidableEq, Repr

/-! ### Idempotency store (db.py) -/

/-- Raw sqlite insert into the `downloads(id TEXT UNIQUE)` table: raises
`IntegrityError` on a duplicate id, else appends the row. -/
def sqliteInsertDownload (rows : List String) (id : String) : Except String (List String) :=
  if rows.contains id then Except.error "IntegrityError" else Except.ok (rows ++ [id])

/-- `DatabaseBase.add` on the `Downloads` table (db.py lines 128-148): the
`IntegrityError` raised on a duplicate insert is caught and swallowed, so the
call always returns normally. -/
def downloadsAdd (rows : List String) (id : String) : Except String (List String) :=
  match sqliteInsertDownload rows id with
  | Except.ok r => Except.ok r
  | Except.error _ => Except.ok rows

/-- Raw sqlite insert into `failed_downloads(source, media_type, id TEXT UNIQUE)`:
the UNIQUE constraint is on `id` alone. -/
def sqliteInsertFailed (rows : List (String × String × String))
    (src mt id : String) : Except String (List (String × String × String)) :=
  if rows.any (fun r => r.2.2 == id) then Except.error "IntegrityError"
  else Except.ok (rows ++ [(src, mt, id)])

/-- `DatabaseBase.add` on the `Failed` table, duplicate inserts swallowed. -/
def failedAdd (rows : List (String × String × String))
    (src mt id : String) : Except String (List (String × String × String)) :=
  match sqliteInsertFailed rows src mt id with
  | Except.ok r => Except.ok r
  | Except.error _ => Except.ok rows

/-- Backend for the downloads table: either the `Dummy` no-op store used when
databases are disabled, or a real sqlite table (db.py `Dummy` / `Downloads`). -/
inductive DLStore where
  | dummy
  | table (rows : List String)
deriving DecidableEq, Repr

/-- `contains` of the downloads backend: `Dummy.contains` is constantly false. -/
def DLStore.contains : DLStore → String → Bool
  | DLStore.dummy, _ => false
  | DLStore.table rows, id => rows.contains id

/-- `add` of the downloads backend: `Dummy.add` is a no-op; the sqlite table
performs the duplicate-swallowing insert. -/
def DLStore.add : DLStore → String → DLStore
  | DLStore.dummy, _ => DLStore.dummy
  | DLStore.table rows, id =>
    match downloadsAdd rows id with
    | Except.ok r => DLStore.table r
    | Except.error _ => DLStore.table rows

/-- Backend for the failed_downloads table. -/
inductive FStore where
  | dummy
  | table (rows : List (String × String × String))
deriving DecidableEq, Repr

/-- `add` of the failed backend. -/
def FStore.add : FStore → String → String → String → FStore
  | FStore.dummy, _, _, _ => FStore.dummy
  | FStore.table rows, src, mt, id =>
    match failedAdd rows src mt id with
    | Except.ok r => FStore.table r
    | Except.error _ => FStore.table rows

/-- The rows currently held by a failed backend (empty for `Dummy`). -/
def FStore.rows : FStore → List (String × String × String)
  | FStore.dummy => []
  | FStore.table r => r

/-- The `Database` dataclass of db.py (covers table omitted: no claim uses it). -/
structure Database where
  downloads : DLStore
  failed : FStore
deriving DecidableEq, Repr

/-- `Database.downloaded` (db.py line 278). -/
def Database.downloaded (db : Database) (item_id : String) : Bool :=
  db.downloads.contains item_id

/-- `Database.set_downloaded` (db.py line 281), the spec `markCompleted`. -/
def Database.set_downloaded (db : Database) (item_id : String) : Database :=
  { db with downloads := db.downloads.add item_id }

/-- `Database.set_failed` (db.py line 287), the spec `markFailed`. -/
def Database.set_failed (db : Database) (src mt id : String) : Database :=
  { db with failed := db.failed.add src mt id }

/-- The rows of the failed set of a database. -/
def Database.failedRows (db : Database) : List (String × String × String) :=
  db.failed.rows

/-- The fully disabled database: both backends are `Dummy` (db.py lines 35-51). -/
def dummyDatabase : Database :=
  { downloads := DLStore.dummy, failed := FStore.dummy }

/-! ### Event bus state (SSEManager, sse_server.py lines 72-165)

Python dicts keyed by entity id are modelled as lists in insertion order with
in-place replacement on key collision, which is exactly dict-update order. -/

/-- The retained-state part of `SSEManager` (`playlists`, `tracks`,
`search_status`).  Client queues are modelled separately. -/
structure SSEState where
  playlists : List PlaylistEvent
  tracks : List TrackEvent
  search_status : List SearchEvent
deriving DecidableEq, Repr

/-- Dict upsert `self.playlists[e.playlist_id] = e`. -/
def upsertPlaylist : List PlaylistEvent → PlaylistEvent → List PlaylistEvent
  | [], e => [e]
  | p :: rest, e =>
    if p.playlist_id == e.playlist_id then e :: rest else p :: upsertPlaylist rest e

/-- Dict upsert `self.tracks[e.track_id] = e`. -/
def upsertTrack : List TrackEvent → TrackEvent → List TrackEvent
  | [], e => [e]
  | t :: rest, e =>
    if t.track_id == e.track_id then e :: rest else t :: upsertTrack rest e

/-- Dict upsert `self.search_status[e.playlist_id] = e`. -/
def upsertSearch : List SearchEvent → SearchEvent → List SearchEvent
  | [], e => [e]
  | s :: rest, e =>
    if s.playlist_id == e.playlist_id then e :: rest else s :: upsertSearch rest e

/-- The membership test `t.status in ["found", "downloading", "completed"]`
of `_update_playlist_stats` (sse_server.py line 147). -/
def trackStatusFound (t : TrackEvent) : Bool :=
  ["found", "downloading", "completed"].contains t.status

/-- One iteration of `SSEManager._update_playlist_stats` (sse_server.py lines
141-165) for a single retained playlist: recompute the three counters from the
retained track events of that collection, and when any changed, update the
counters, timestamp and derived status and broadcast the updated event.  A
playlist with no retained track events is left untouched (`if playlist_tracks:`). -/
def recomputePlaylist (p : PlaylistEvent) (tracks : List TrackEvent) (now : Nat) :
    PlaylistEvent × List BusEvent :=
  let pts := tracks.filter (fun t => t.playlist_id == some p.playlist_id)
  if pts.isEmpty then (p, [])
  else
    let found := (pts.filter trackStatusFound).length
    let completed := (pts.filter (fun t => t.status == "completed")).length
    let failedc := (pts.filter (fun t => t.status == "failed")).length
    if p.found_tracks ≠ found ∨ p.completed_tracks ≠ completed ∨ p.failed_tracks ≠ failedc then
      let status :=
        if completed + failedc = p.total_tracks ∧ 0 < p.total_tracks then "completed"
        else if 0 < completed ∨ 0 < found then "downloading"
        else p.status
      let p' := { p with found_tracks := found, completed_tracks := completed,
                         failed_tracks := failedc, timestamp := now, status := status }
      (p', [BusEvent.playlist_update p'])
    else (p, [])

/-- `SSEManager._update_playlist_stats`: the `for playlist_id, playlist in
self.playlists.items()` loop, recomputing every retained playlist. -/
def updatePlaylistStats (playlists : List PlaylistEvent) (tracks : List TrackEvent)
    (now : Nat) : List PlaylistEvent × List BusEvent :=
  match playlists with
  | [] => ([], [])
  | p :: rest =>
    let (p', evs) := recomputePlaylist p tracks now
    let (rest', evs') := updatePlaylistStats rest tracks now
    (p' :: rest', evs ++ evs')

/-- `SSEManager.update_playlist` (sse_server.py lines 125-128): upsert and
broadcast. -/
def updatePlaylist (s : SSEState) (e : PlaylistEvent) : SSEState × List BusEvent :=
  ({ s with playlists := upsertPlaylist s.playlists e }, [BusEvent.playlist_update e])

/-- `SSEManager.update_track` (sse_server.py lines 130-134): upsert, broadcast,
then run the stats aggregator synchronously. -/
def updateTrack (s : SSEState) (e : TrackEvent) (now : Nat) : SSEState × List BusEvent :=
  let tracks' := upsertTrack s.tracks e
  let (playlists', evs) := updatePlaylistStats s.playlists tracks' now
  ({ playlists := playlists', tracks := tracks', search_status := s.search_status },
   BusEvent.track_update e :: evs)

/-- `SSEManager.update_search` (sse_server.py lines 136-139). -/
def updateSearch (s : SSEState) (e : SearchEvent) : SSEState × List BusEvent :=
  ({ s with search_status := upsertSearch s.search_status e }, [BusEvent.search_update e])

/-! ### Observer stream (SSEManager.add_client, sse_server.py lines 81-108) -/

/-- One SSE frame yielded to a connected observer. -/
inductive SSEFrame where
  | connection
  | playlist_update (p : PlaylistEvent)
  | track_update (t : TrackEvent)
  | search_update (s : SearchEvent)
  | keepalive
deriving DecidableEq, Repr

/-- The deterministic opening of `add_client`: the connection acknowledgement,
then one `playlist_update` frame per retained playlist, then one `track_update`
frame per retained track.  Retained search state is not replayed. -/
def addClientSnapshot (s : SSEState) : List SSEFrame :=
  SSEFrame.connection ::
    (s.playlists.map SSEFrame.playlist_update ++ s.tracks.map SSEFrame.track_update)

/-- The full frame stream consumed from an observer handle: the snapshot,
followed by whatever live frames the queue subsequently delivers. -/
def addClientStream (s : SSEState) (live : List SSEFrame) : List SSEFrame :=
  addClientSnapshot s ++ live

/-- Whether the snapshot contains a frame for a retained search entity. -/
def snapshotCoversSearch (s : SSEState) : Bool :=
  s.search_status.all (fun se => (addClientSnapshot s).contains (SSEFrame.search_update se))

/-! ### Orchestrator collection events (media/playlist.py) -/

/-- `Playlist.preprocess` (playlist.py lines 115-123): publish
`PlaylistEvent{status: downloading, total_tracks: N}` with fresh counters. -/
def playlistPreprocess (s : SSEState) (pid name : String) (n : Nat) (now : Nat) :
    SSEState × List BusEvent :=
  updatePlaylist s { playlist_id := pid, playlist_name := name, status := "downloading",
                     total_tracks := n, found_tracks := 0, failed_tracks := 0,
                     completed_tracks := 0, timestamp := now }

/-- `Playlist.postprocess` (playlist.py lines 125-133): fetch the retained event
for the collection, set its status to `"completed"` and its timestamp, and
republish it.  The counters are left as they are. -/
def playlistPostprocess (s : SSEState) (pid : String) (now : Nat) :
    SSEState × List BusEvent :=
  match s.playlists.find? (fun p => p.playlist_id == pid) with
  | none => (s, [])
  | some p => updatePlaylist s { p with status := "completed", timestamp := now }

/-- The aggregator invariant of the spec, as a predicate on a retained
collection event: status `"completed"` forces `completed + failed = total`. -/
def aggInvariantB (p : PlaylistEvent) : Bool :=
  (p.status != "completed") || (p.completed_tracks + p.failed_tracks == p.total_tracks)

/-! ### Resolution layer (media/track.py, media/playlist.py)

The external metadata client is a pure capability record; evaluating a
capability is counted in `metadataFetches`.  An uncaught Python exception is an
`Except.error`. -/

/-- Track metadata relevant to the embedded resolvers. -/
structure Meta where
  title : String
  artist : String
  tracknumber : Nat
  discnumber : Nat
deriving DecidableEq, Repr

/-- Album metadata relevant to the embedded resolvers. -/
structure Album where
  album : String
  disctotal : Nat
deriving DecidableEq, Repr

/-- Outcome of `client.get_metadata` for `PendingTrack.resolve`:
`NonStreamableError` is the only exception type caught there; any other
exception propagates out of `resolve`. -/
inductive MetaFetch where
  | ok (resp : String)
  | nonStreamable (msg : String)
  | raised (msg : String)
deriving DecidableEq, Repr

/-- The external client capability as used by `PendingTrack.resolve`
(track.py lines 196-285). -/
structure TrackFetch where
  source : String
  metadata : MetaFetch
  from_resp : String → Except String (Option Meta)
  get_downloadable : Except String Unit

/-- The resolved `Track` fields the claims observe. -/
structure RTrack where
  id : String
  title : String
  artist : String
  folder : String
  playlist_id : Option String
deriving DecidableEq, Repr

/-- Branch taken by a resolver: the spec vocabulary
`ResolvedMedia | skipped | failed`. -/
inductive Outcome where
  | skipped
  | failed
  | resolved (t : RTrack)
deriving DecidableEq, Repr

/-- Observable result of one resolver call: the outcome, the database state
after the call, the track events published during the call, and how many times
the metadata-fetch capability was invoked. -/
structure RResult where
  outcome : Outcome
  db : Database
  events : List TrackEvent
  metadataFetches : Nat
deriving DecidableEq, Repr

/-- `progress.emit_track_error`: a `TrackEvent{status: failed}`. -/
def failedEvent (id title artist msg : String) (pid : Option String) : TrackEvent :=
  { track_id := id, title := title, artist := artist, status := "failed",
    progress := 0, error_message := some msg, playlist_id := pid, timestamp := 0 }

/-- `progress.emit_track_found`: a `TrackEvent{status: found}`. -/
def foundEvent (id title artist : String) (pid : Option String) : TrackEvent :=
  { track_id := id, title := title, artist := artist, status := "found",
    progress := 0, error_message := none, playlist_id := pid, timestamp := 0 }

/-- `PendingTrack.resolve` (track.py lines 189-285).  Skips ids already in the
completed set; catches `NonStreamableError` from the metadata fetch (publishing
a failed event but writing nothing to the store); lets any other fetch
exception propagate; records `set_failed` only when the parsed metadata is
`None`; publishes a found event before fetching the downloadable handle. -/
def pendingTrackResolve (id : String) (albumDisctotal : Nat) (cl : TrackFetch)
    (db : Database) (folder : String) (pid : Option String) (discSubdirs : Bool) :
    Except String RResult :=
  if db.downloaded id then
    Except.ok { outcome := Outcome.skipped, db := db, events := [], metadataFetches := 0 }
  else
    match cl.metadata with
    | MetaFetch.nonStreamable m =>
      Except.ok { outcome := Outcome.failed, db := db,
                  events := [failedEvent id "Unknown Track" "Unknown Artist"
                              ("Not streamable: " ++ m) pid],
                  metadataFetches := 1 }
    | MetaFetch.raised m => Except.error m
    | MetaFetch.ok resp =>
      match cl.from_resp resp with
      | Except.error m =>
        Except.ok { outcome := Outcome.failed, db := db,
                    events := [failedEvent id "Unknown Track" "Unknown Artist"
                                ("Metadata error: " ++ m) pid],
                    metadataFetches := 1 }
      | Except.ok none =>
        Except.ok { outcome := Outcome.failed, db := db.set_failed cl.source "track" id,
                    events := [failedEvent id "Unknown Track" "Unknown Artist"
                                "Track not available for streaming" pid],
                    metadataFetches := 1 }
      | Except.ok (some meta) =>
        match cl.get_downloadable with
        | Except.error m =>
          Except.ok { outcome := Outcome.failed, db := db,
                      events := [foundEvent id meta.title meta.artist pid,
                                 failedEvent id meta.title meta.artist
                                   ("Download error: " ++ m) pid],
                      metadataFetches := 1 }
        | Except.ok _ =>
          let folder' :=
            if discSubdirs ∧ 1 < albumDisctotal then
              folder ++ "/Disc " ++ toString meta.discnumber
            else folder
          Except.ok { outcome := Outcome.resolved
                        { id := id, title := meta.title, artist := meta.artist,
                          folder := folder', playlist_id := pid },
                      db := db,
                      events := [foundEvent id meta.title meta.artist pid],
                      metadataFetches := 1 }

/-- The external client capability as used by `PendingPlaylistTrack.resolve`
(playlist.py lines 50-100): the whole body sits under one catch-all handler,
so every fetch is a plain `Except`. -/
structure PlTrackFetch where
  source : String
  metadata : Except String String
  from_track_resp : String → Except String (Option Album)
  from_resp : Option Album → String → Except String (Option Meta)
  get_downloadable : Except String Unit
  download_cover : Except String (Option String)

/-- `PendingPlaylistTrack.resolve` (playlist.py lines 50-93).  Skips completed
ids; any exception in the body hits the catch-all branch, which records
`set_failed` and publishes a `TrackEvent{status: failed}`; the `if not album or
not meta` branch records `set_failed` without publishing an event. -/
def pendingPlaylistTrackResolve (id playlist_name : String) (position : Nat)
    (folder : String) (renumber setAlbum : Bool) (cl : PlTrackFetch)
    (db : Database) (pid : Option String) : RResult :=
  if db.downloaded id then
    { outcome := Outcome.skipped, db := db, events := [], metadataFetches := 0 }
  else
    let failBranch : String → RResult := fun m =>
      { outcome := Outcome.failed, db := db.set_failed cl.source "track" id,
        events := [{ track_id := id, title := "Track " ++ toString position,
                     artist := "Unknown", status := "failed", progress := 0,
                     error_message := some m, playlist_id := pid, timestamp := 0 }],
        metadataFetches := 1 }
    match cl.metadata with
    | Except.error m => failBranch m
    | Except.ok resp =>
      match cl.from_track_resp resp with
      | Except.error m => failBranch m
      | Except.ok albumOpt =>
        match cl.from_resp albumOpt resp with
        | Except.error m => failBranch m
        | Except.ok metaOpt =>
          match albumOpt, metaOpt with
          | some album, some meta =>
            let meta := if renumber then { meta with tracknumber := position } else meta
            let _album := if setAlbum then { album with album := playlist_name } else album
            match cl.download_cover, cl.get_downloadable with
            | Except.error m, _ => failBranch m
            | Except.ok _, Except.error m => failBranch m
            | Except.ok _, Except.ok _ =>
              { outcome := Outcome.resolved
                  { id := id, title := meta.title, artist := meta.artist,
                    folder := folder, playlist_id := pid },
                db := db, events := [], metadataFetches := 1 }
          | _, _ =>
            { outcome := Outcome.failed, db := db.set_failed cl.source "track" id,
              events := [], metadataFetches := 1 }

/-! ### Concurrency-gated downloader (media/track.py Track.download, progress.py) -/

/-- One byte-transfer attempt: the progress increments delivered to the chunk
callback before the attempt finishes, and its final outcome. -/
structure Attempt where
  chunks : List Nat
  result : Except String Unit
deriving Repr

/-- Whether the attempt raised. -/
def attemptRaised (a : Attempt) : Bool :=
  match a.result with
  | Except.ok _ => false
  | Except.error _ => true

/-- The running percentage computed by `_callback_update` (progress.py lines
70-98), as a Nat percent clamped at 100. -/
def pct (total acc : Nat) : Nat :=
  if 0 < total then min (acc * 100 / total) 100 else 0

/-- The `TrackEvent{status: downloading}` stream published by the chunk
callback while a transfer runs. -/
def chunkEvents (id title artist : String) (pid : Option String) (total : Nat) :
    Nat → List Nat → List TrackEvent
  | _, [] => []
  | acc, c :: cs =>
    { track_id := id, title := title, artist := artist, status := "downloading",
      progress := pct total (acc + c), error_message := none,
      playlist_id := pid, timestamp := 0 } ::
    chunkEvents id title artist pid total (acc + c) cs

/-- The `TrackEvent{status: completed, progress: 100}` published by
`_callback_done` (progress.py lines 100-122) when the progress handle closes. -/
def doneEvent (id title artist : String) (pid : Option String) : TrackEvent :=
  { track_id := id, title := title, artist := artist, status := "completed",
    progress := 100, error_message := none, playlist_id := pid, timestamp := 0 }

/-- Observable result of one `Track.download` call. -/
structure DownloadResult where
  transferCalls : Nat
  db : Database
  events : List TrackEvent
deriving Repr

/-- `Track.download` (track.py lines 63-125).  First attempt under a progress
handle; on failure publish an error event, close the handle, and retry exactly
once under a fresh handle; on retry failure record `set_failed` and publish the
persistent error event.  When progress bars are enabled the handle publishes a
downloading event per chunk and a completed event when it closes
(`Handle.__exit__` runs `_callback_done` on success and failure alike). -/
def trackDownload (source id title artist : String) (pid : Option String)
    (total : Nat) (progressEnabled : Bool) (a1 a2 : Attempt) (db : Database) :
    DownloadResult :=
  let cb1 := if progressEnabled then chunkEvents id title artist pid total 0 a1.chunks else []
  let done := if progressEnabled then [doneEvent id title artist pid] else []
  match a1.result with
  | Except.ok _ =>
    { transferCalls := 1, db := db, events := cb1 ++ done }
  | Except.error m1 =>
    let firstBlock :=
      cb1 ++ [failedEvent id title artist ("Download error, retrying: " ++ m1) pid] ++ done
    let cb2 := if progressEnabled then chunkEvents id title artist pid total 0 a2.chunks else []
    match a2.result with
    | Except.ok _ =>
      { transferCalls := 2, db := db, events := firstBlock ++ cb2 ++ done }
    | Except.error m2 =>
      { transferCalls := 2, db := db.set_failed source "track" id,
        events := firstBlock ++ cb2 ++
          [failedEvent id title artist ("Persistent error: " ++ m2) pid] ++ done }

/-- Terminal statuses of the spec. -/
def isTerminalStatus (s : String) : Bool :=
  s == "completed" || s == "failed"

/-- The temporal property of the spec on a status sequence: once a terminal
status appears, every later status equals it. -/
def terminalStable : List String → Bool
  | [] => true
  | s :: rest =>
    (if isTerminalStatus s then rest.all (fun t => t == s) else true) && terminalStable rest

/-! ### Search with fallback (media/playlist.py PendingLastfmPlaylist) -/

/-- A search client capability: `client.search("track", query, limit=1)`
processed by `SearchResults.from_pages` down to the flat list of result ids.
An empty list covers both an empty page list and pages with no results. -/
structure SClient where
  source : String
  search : String → Except String (List String)

/-- The query string built in `PendingLastfmPlaylist.resolve` line 226. -/
def lfmQuery (p : String × String) : String :=
  p.1 ++ " " ++ p.2

/-- `PendingLastfmPlaylist._search_track` (playlist.py lines 259-281): try the
primary client; if it returns results take the first; only on a successful
empty primary result consult the fallback client, when present.  Any exception
is caught and yields `(none, false)`.  The third component instruments whether
the fallback client was consulted at all. -/
def searchTrack (client : SClient) (fb : Option SClient) (query : String) :
    Option String × Bool × Bool :=
  match client.search query with
  | Except.error _ => (none, false, false)
  | Except.ok (t :: _) => (some t, false, false)
  | Except.ok [] =>
    match fb with
    | none => (none, false, false)
    | some f =>
      match f.search query with
      | Except.error _ => (none, false, true)
      | Except.ok [] => (none, false, true)
      | Except.ok (t :: _) => (some t, true, true)

/-- The per-pair loop of `PendingLastfmPlaylist.resolve` (playlist.py lines
225-243): for each `(title, artist)` pair run the search, update the running
found/failed counters, append `(track_id, chosen client)` to the results on a
hit, and emit a `SearchEvent` carrying the running totals and the query before
moving to the next pair. -/
def lfmLoop (client : SClient) (fb : Option SClient) (pid : String) (total : Nat) :
    Nat → Nat → List (String × String) → List (String × SClient) × List SearchEvent
  | _, _, [] => ([], [])
  | found, failedc, p :: rest =>
    let query := lfmQuery p
    let r := searchTrack client fb query
    match r.1 with
    | some t =>
      let chosen := if r.2.1 then fb.getD client else client
      ((t, chosen) :: (lfmLoop client fb pid total (found + 1) failedc rest).1,
       { playlist_id := pid, total := total, found := found + 1, failed := failedc,
         current_query := query, timestamp := 0 } ::
         (lfmLoop client fb pid total (found + 1) failedc rest).2)
    | none =>
      ((lfmLoop client fb pid total found (failedc + 1) rest).1,
       { playlist_id := pid, total := total, found := found, failed := failedc + 1,
         current_query := query, timestamp := 0 } ::
         (lfmLoop client fb pid total found (failedc + 1) rest).2)

/-- Number of pairs of the list whose search yields a hit. -/
def countFound (client : SClient) (fb : Option SClient)
    (pairs : List (String × String)) : Nat :=
  (pairs.filter (fun p => ((searchTrack client fb (lfmQuery p)).1).isSome)).length

/-- Number of pairs of the list whose search yields no hit. -/
def countNotFound (client : SClient) (fb : Option SClient)
    (pairs : List (String × String)) : Nat :=
  (pairs.filter (fun p => ((searchTrack client fb (lfmQuery p)).1).isNone)).length

/-! ### Concrete instances used by witnesses and counterexamples -/

/-- A track-fetch capability whose parsed metadata is `None`. -/
def clTEx : TrackFetch :=
  { source := "s", metadata := MetaFetch.ok "resp",
    from_resp := fun _ => Except.ok none, get_downloadable := Except.ok () }

/-- A playlist-track-fetch capability whose metadata fetch raises. -/
def clPEx : PlTrackFetch :=
  { source := "s", metadata := Except.error "boom",
    from_track_resp := fun _ => Except.ok none,
    from_resp := fun _ _ => Except.ok none,
    get_downloadable := Except.ok (), download_cover := Except.ok none }

/-! ## Claims -/

/-- Claim C7: for every id already present in the completed set, both resolvers
return skipped without invoking the metadata-fetch capability, without writing
to the store and without publishing any event. -/
theorem resolve_skips_completed (id pname folder : String) (adt pos : Nat)
    (pid : Option String) (dsd renum setAlb : Bool) (cl : TrackFetch)
    (cl2 : PlTrackFetch) (db : Database) (h : db.downloaded id = true) :
    pendingTrackResolve id adt cl db folder pid dsd =
      Except.ok { outcome := Outcome.skipped, db := db, events := [], metadataFetches := 0 } ∧
    pendingPlaylistTrackResolve id pname pos folder renum setAlb cl2 db pid =
      { outcome := Outcome.skipped, db := db, events := [], metadataFetches := 0 } := by
  constructor
  · unfold pendingTrackResolve
    simp [h]
  · unfold pendingPlaylistTrackResolve
    simp [h]

/-- Witness for C7 at a concrete completed id. -/
theorem resolve_skips_completed_witness :
    pendingTrackResolve "id1" 1 clTEx
        { downloads := DLStore.table ["id1"], failed := FStore.table [] } "f" none false =
      Except.ok { outcome := Outcome.skipped,
                  db := { downloads := DLStore.table ["id1"], failed := FStore.table [] },
                  events := [], metadataFetches := 0 } :=
  (resolve_skips_completed "id1" "P" "f" 1 1 none false false false clTEx clPEx
    { downloads := DLStore.table ["id1"], failed := FStore.table [] } (by decide)).1

/-- Claim C8: markCompleted is idempotent.  Starting from a downloads table
respecting its UNIQUE constraint, adding the same id twice returns normally
(the duplicate-insert IntegrityError is swallowed) and leaves exactly one row
for that id. -/
theorem markCompleted_idempotent (rows : List String) (id : String)
    (h : rows.count id ≤ 1) :
    ∃ r, (downloadsAdd rows id).bind (fun r1 => downloadsAdd r1 id) = Except.ok r ∧
      r.count id = 1 := by
  by_cases hm : id ∈ rows
  · refine ⟨rows, ?_, ?_⟩
    · simp [downloadsAdd, sqliteInsertDownload, hm, Except.bind]
    · have h1 : 0 < rows.count id := List.count_pos_iff.mpr hm
      omega
  · refine ⟨rows ++ [id], ?_, ?_⟩
    · simp [downloadsAdd, sqliteInsertDownload, hm, Except.bind]
    · have h0 : rows.count id = 0 := List.count_eq_zero.mpr hm
      simp [List.count_append, h0]

/-- Witness for C8 on an empty downloads table. -/
theorem markCompleted_idempotent_witness :
    ∃ r, (downloadsAdd [] "x").bind (fun r1 => downloadsAdd r1 "x") = Except.ok r ∧
      r.count "x" = 1 :=
  markCompleted_idempotent [] "x" (by decide)

/-- Claim C9: with the disabled (Dummy) store, isCompleted is false for every
id, markCompleted and markFailed are no-ops, and consequently neither resolver
ever returns skipped. -/
theorem dummy_store_never_skips (id src mt pname folder : String) (adt pos : Nat)
    (pid : Option String) (dsd renum setAlb : Bool) (cl : TrackFetch)
    (cl2 : PlTrackFetch) :
    Database.downloaded dummyDatabase id = false ∧
    Database.set_downloaded dummyDatabase id = dummyDatabase ∧
    Database.set_failed dummyDatabase src mt id = dummyDatabase ∧
    (pendingPlaylistTrackResolve id pname pos folder renum setAlb cl2 dummyDatabase
      pid).outcome ≠ Outcome.skipped ∧
    (∀ r, pendingTrackResolve id adt cl dummyDatabase folder pid dsd = Except.ok r →
      r.outcome ≠ Outcome.skipped) := by
  refine ⟨rfl, rfl, rfl, ?_, ?_⟩
  · unfold pendingPlaylistTrackResolve
    simp only [Database.downloaded, dummyDatabase, DLStore.contains, Bool.false_eq_true,
      if_false]
    repeat' split
    all_goals simp
  · intro r hr
    unfold pendingTrackResolve at hr
    simp only [Database.downloaded, dummyDatabase, DLStore.contains, Bool.false_eq_true,
      if_false] at hr
    repeat' split at hr
    all_goals first
      | exact Except.noConfusion hr
      | (have h2 := Except.ok.inj hr; subst h2; simp)

/-- A fresh database with real (empty) tables. -/
def dbEmpty : Database :=
  { downloads := DLStore.table [], failed := FStore.table [] }

/-- A track-fetch capability whose metadata fetch raises `NonStreamableError`. -/
def clC2 : TrackFetch :=
  { source := "s", metadata := MetaFetch.nonStreamable "e",
    from_resp := fun _ => Except.ok none, get_downloadable := Except.ok () }

/-- Counterexample to claim C2 as stated: for a pending track (plain
`PendingTrack`) whose id is not completed and whose metadata fetch raises a
not-streamable error, resolve returns failed and publishes the failed
TrackEvent, but the failed set is left untouched — markFailed is never
invoked on this path (track.py lines 197-212). -/
theorem pendingTrack_fetch_error_no_markFailed :
    dbEmpty.downloaded "t1" = false ∧
    pendingTrackResolve "t1" 1 clC2 dbEmpty "f" none false =
      Except.ok { outcome := Outcome.failed, db := dbEmpty,
                  events := [failedEvent "t1" "Unknown Track" "Unknown Artist"
                              "Not streamable: e" none],
                  metadataFetches := 1 } ∧
    dbEmpty.failedRows = [] :=
  ⟨rfl, rfl, rfl⟩

/-- Claim C2 (amended): on a raised metadata-fetch error the playlist-track
resolver returns failed, invokes markFailed for the id and publishes a
TrackEvent with status failed; the plain track resolver publishes the failed
TrackEvent and returns failed on a not-streamable fetch error but performs no
store write. -/
theorem metadata_fetch_error_failed (id pname folder : String) (adt pos : Nat)
    (renum setAlb dsd : Bool) (cl2 : PlTrackFetch) (db : Database)
    (pid : Option String) (m : String)
    (h1 : db.downloaded id = false) (h2 : cl2.metadata = Except.error m) :
    pendingPlaylistTrackResolve id pname pos folder renum setAlb cl2 db pid =
      { outcome := Outcome.failed, db := db.set_failed cl2.source "track" id,
        events := [{ track_id := id, title := "Track " ++ toString pos,
                     artist := "Unknown", status := "failed", progress := 0,
                     error_message := some m, playlist_id := pid, timestamp := 0 }],
        metadataFetches := 1 } ∧
    (∀ cl : TrackFetch, ∀ em, cl.metadata = MetaFetch.nonStreamable em →
      pendingTrackResolve id adt cl db folder pid dsd =
        Except.ok { outcome := Outcome.failed, db := db,
                    events := [failedEvent id "Unknown Track" "Unknown Artist"
                                ("Not streamable: " ++ em) pid],
                    metadataFetches := 1 }) := by
  constructor
  · unfold pendingPlaylistTrackResolve
    simp [h1, h2]
  · intro cl em hcm
    unfold pendingTrackResolve
    simp [h1, hcm]

/-- Witness for C2 (amended) at concrete capabilities. -/
theorem metadata_fetch_error_failed_witness :
    pendingPlaylistTrackResolve "t1" "P" 1 "f" false false clPEx dbEmpty none =
      { outcome := Outcome.failed, db := dbEmpty.set_failed "s" "track" "t1",
        events := [{ track_id := "t1", title := "Track " ++ toString 1,
                     artist := "Unknown", status := "failed", progress := 0,
                     error_message := some "boom", playlist_id := none, timestamp := 0 }],
        metadataFetches := 1 } ∧
    pendingTrackResolve "t1" 1 clC2 dbEmpty "f" none false =
      Except.ok { outcome := Outcome.failed, db := dbEmpty,
                  events := [failedEvent "t1" "Unknown Track" "Unknown Artist"
                              ("Not streamable: " ++ "e") none],
                  metadataFetches := 1 } := by
  have h := metadata_fetch_error_failed "t1" "P" "f" 1 1 false false false clPEx dbEmpty
    none "boom" (by decide) rfl
  exact ⟨h.1, h.2 clC2 "e" rfl⟩

/-- Claim C3: the downloader calls the byte-transfer operation at most twice,
and the track id enters the failed set through download exactly when both
attempts raised. -/
theorem download_two_attempts_failed_iff (source id title artist : String)
    (pid : Option String) (total : Nat) (progressEnabled : Bool) (a1 a2 : Attempt)
    (dl : DLStore) (rows : List (String × String × String))
    (hid : ∀ r ∈ rows, r.2.2 ≠ id) :
    (trackDownload source id title artist pid total progressEnabled a1 a2
        { downloads := dl, failed := FStore.table rows }).transferCalls ≤ 2 ∧
    ((∃ r ∈ (trackDownload source id title artist pid total progressEnabled a1 a2
        { downloads := dl, failed := FStore.table rows }).db.failedRows, r.2.2 = id) ↔
      (attemptRaised a1 = true ∧ attemptRaised a2 = true)) := by
  have hany : rows.any (fun r => r.2.2 == id) = false := by
    rw [List.any_eq_false]
    intro r hrr
    simpa using hid r hrr
  cases h1 : a1.result with
  | ok u =>
    refine ⟨by simp [trackDownload, h1], ?_⟩
    have hdb : (trackDownload source id title artist pid total progressEnabled a1 a2
        { downloads := dl, failed := FStore.table rows }).db =
        { downloads := dl, failed := FStore.table rows } := by
      simp [trackDownload, h1]
    rw [hdb]
    simp only [Database.failedRows, FStore.rows]
    constructor
    · rintro ⟨r, hrmem, hrid⟩
      exact absurd hrid (hid r hrmem)
    · rintro ⟨ha, -⟩
      simp [attemptRaised, h1] at ha
  | error m1 =>
    cases h2 : a2.result with
    | ok u =>
      refine ⟨by simp [trackDownload, h1, h2], ?_⟩
      have hdb : (trackDownload source id title artist pid total progressEnabled a1 a2
          { downloads := dl, failed := FStore.table rows }).db =
          { downloads := dl, failed := FStore.table rows } := by
        simp [trackDownload, h1, h2]
      rw [hdb]
      simp only [Database.failedRows, FStore.rows]
      constructor
      · rintro ⟨r, hrmem, hrid⟩
        exact absurd hrid (hid r hrmem)
      · rintro ⟨-, ha⟩
        simp [attemptRaised, h2] at ha
    | error m2 =>
      refine ⟨by simp [trackDownload, h1, h2], ?_⟩
      have hdb : (trackDownload source id title artist pid total progressEnabled a1 a2
          { downloads := dl, failed := FStore.table rows }).db =
          { downloads := dl,
            failed := FStore.table (rows ++ [(source, "track", id)]) } := by
        simp [trackDownload, h1, h2, Database.set_failed, FStore.add, failedAdd,
          sqliteInsertFailed, hany]
      rw [hdb]
      simp only [Database.failedRows, FStore.rows]
      constructor
      · intro _
        exact ⟨by simp [attemptRaised, h1], by simp [attemptRaised, h2]⟩
      · intro _
        exact ⟨(source, "track", id), by simp, rfl⟩

/-- Witness for C3 on a concrete doubly-failing download. -/
theorem download_two_attempts_failed_iff_witness :
    (trackDownload "s" "t1" "T" "A" none 8 false
        { chunks := [], result := Except.error "e1" }
        { chunks := [], result := Except.error "e2" }
        { downloads := DLStore.table [], failed := FStore.table [] }).transferCalls ≤ 2 ∧
    ((∃ r ∈ (trackDownload "s" "t1" "T" "A" none 8 false
        { chunks := [], result := Except.error "e1" }
        { chunks := [], result := Except.error "e2" }
        { downloads := DLStore.table [], failed := FStore.table [] }).db.failedRows,
        r.2.2 = "t1") ↔
      (attemptRaised { chunks := [], result := Except.error "e1" } = true ∧
       attemptRaised { chunks := [], result := Except.error "e2" } = true)) :=
  download_two_attempts_failed_iff "s" "t1" "T" "A" none 8 false
    { chunks := [], result := Except.error "e1" }
    { chunks := [], result := Except.error "e2" }
    (DLStore.table []) [] (by simp)

/-- The download trace used against claim C4: progress bars enabled,
first transfer attempt raises immediately, the retry delivers one chunk and
succeeds. -/
def cexDownload : DownloadResult :=
  trackDownload "s" "t1" "T" "A" none 8 true
    { chunks := [], result := Except.error "boom" }
    { chunks := [4], result := Except.ok () }
    dummyDatabase

/-- Counterexample to claim C4 as stated: the download publishes a terminal
failed event for the first-attempt transfer error, and later publishes a
completed event (the closing progress handle) and a downloading event (the
chunk callback of the retry) for the same entity, so a terminal event is not last. -/
theorem download_terminal_claim_fails :
    cexDownload.events.map (fun e => e.status) =
      ["failed", "completed", "downloading", "completed"] ∧
    terminalStable (cexDownload.events.map (fun e => e.status)) = false :=
  ⟨rfl, rfl⟩

/-- Claim C4 (amended): with progress reporting disabled, every TrackEvent that
download itself publishes has status failed, and once the retry-failure event
is published nothing follows it, so the download-published event sequence
satisfies the terminal-stability property.  (With progress bars enabled the
first-attempt failure event is followed by downloading and completed events,
as the counterexample shows.) -/
theorem download_terminal_stable_no_progress (source id title artist : String)
    (pid : Option String) (total : Nat) (a1 a2 : Attempt) (db : Database) :
    terminalStable ((trackDownload source id title artist pid total false a1 a2 db).events.map
      (fun e => e.status)) = true := by
  cases h1 : a1.result with
  | ok u => simp [trackDownload, h1, terminalStable]
  | error m1 =>
    cases h2 : a2.result with
    | ok u =>
      simp [trackDownload, h1, h2, failedEvent, terminalStable, isTerminalStatus]
    | error m2 =>
      simp [trackDownload, h1, h2, failedEvent, terminalStable, isTerminalStatus]

/-- The bus state after the orchestrator announces a one-track collection
(`Playlist.preprocess`) of which no track ever publishes an event. -/
def sC1 : SSEState := (playlistPreprocess ⟨[], [], []⟩ "pl1" "P" 1 0).1

/-- Counterexample to claim C1 as stated: after the end-of-collection publish
(`Playlist.postprocess`) for a collection whose single track was skipped, the
retained CollectionEvent has status completed with completed + failed = 0 but
total_tracks = 1, violating the aggregator invariant. -/
theorem postprocess_breaks_agg_invariant :
    (playlistPostprocess sC1 "pl1" 1).1.playlists =
      [{ playlist_id := "pl1", playlist_name := "P", status := "completed",
         total_tracks := 1, found_tracks := 0, failed_tracks := 0,
         completed_tracks := 0, timestamp := 1 }] ∧
    ((playlistPostprocess sC1 "pl1" 1).1.playlists.all aggInvariantB) = false :=
  ⟨rfl, rfl⟩

/-- Claim C1 (amended): whenever the Stats Aggregator itself changes the status
of a retained CollectionEvent to completed, the recomputed completed + failed
count equals total_tracks and total_tracks is positive; the end-of-collection
publish of the orchestrator, in contrast, sets status completed without
touching the counters, so the invariant can fail there when tracks were
skipped. -/
theorem aggregator_completed_implies_counts (p : PlaylistEvent)
    (tracks : List TrackEvent) (now : Nat) (p' : PlaylistEvent) (evs : List BusEvent)
    (heq : recomputePlaylist p tracks now = (p', evs))
    (h1 : p'.status = "completed") (h2 : p.status ≠ "completed") :
    p'.completed_tracks + p'.failed_tracks = p'.total_tracks ∧ 0 < p'.total_tracks := by
  unfold recomputePlaylist at heq
  simp only [] at heq
  split at heq
  · simp only [Prod.mk.injEq] at heq
    obtain ⟨rfl, rfl⟩ := heq
    exact absurd h1 h2
  · split at heq
    case isTrue hch =>
      simp only [Prod.mk.injEq] at heq
      obtain ⟨rfl, rfl⟩ := heq
      simp only at h1 ⊢
      split at h1
      case isTrue hc => exact hc
      case isFalse =>
        split at h1
        · exact absurd h1 (by decide)
        · exact absurd h1 h2
    case isFalse =>
      simp only [Prod.mk.injEq] at heq
      obtain ⟨rfl, rfl⟩ := heq
      exact absurd h1 h2

/-- Witness for C1 (amended): one completed track flips a one-track collection
to completed with matching counters. -/
theorem aggregator_completed_implies_counts_witness :
    ({ playlist_id := "pl", playlist_name := "P", status := "completed",
       total_tracks := 1, found_tracks := 1, failed_tracks := 0,
       completed_tracks := 1, timestamp := 7 } : PlaylistEvent).completed_tracks +
      ({ playlist_id := "pl", playlist_name := "P", status := "completed",
         total_tracks := 1, found_tracks := 1, failed_tracks := 0,
         completed_tracks := 1, timestamp := 7 } : PlaylistEvent).failed_tracks =
      ({ playlist_id := "pl", playlist_name := "P", status := "completed",
         total_tracks := 1, found_tracks := 1, failed_tracks := 0,
         completed_tracks := 1, timestamp := 7 } : PlaylistEvent).total_tracks ∧
    0 < ({ playlist_id := "pl", playlist_name := "P", status := "completed",
           total_tracks := 1, found_tracks := 1, failed_tracks := 0,
           completed_tracks := 1, timestamp := 7 } : PlaylistEvent).total_tracks :=
  aggregator_completed_implies_counts
    { playlist_id := "pl", playlist_name := "P", status := "downloading",
      total_tracks := 1, found_tracks := 0, failed_tracks := 0,
      completed_tracks := 0, timestamp := 0 }
    [{ track_id := "t1", title := "T", artist := "A", status := "completed",
       progress := 100, error_message := none, playlist_id := some "pl", timestamp := 3 }]
    7 _ _ rfl rfl (by decide)

/-- A bus state retaining only a search entity. -/
def sC5 : SSEState :=
  { playlists := [], tracks := [],
    search_status := [{ playlist_id := "pl1", total := 3, found := 1, failed := 0,
                        current_query := "q", timestamp := 0 }] }

/-- Counterexample to claim C5 as stated: with a retained search entity and
nothing else, the snapshot consists of the connection acknowledgement only —
retained search state is never replayed to a new observer. -/
theorem snapshot_missing_search_state :
    sC5.search_status ≠ [] ∧
    addClientSnapshot sC5 = [SSEFrame.connection] ∧
    snapshotCoversSearch sC5 = false :=
  ⟨by decide, rfl, rfl⟩

/-- Claim C5 (amended): a new observer first receives exactly one connection
acknowledgement, then one event per currently-retained playlist and per
currently-retained track (and no frame for retained search state), and only
afterwards the live events. -/
theorem snapshot_then_live (s : SSEState) (live : List SSEFrame) :
    (addClientStream s live).take (1 + s.playlists.length + s.tracks.length) =
      SSEFrame.connection ::
        (s.playlists.map SSEFrame.playlist_update ++ s.tracks.map SSEFrame.track_update) ∧
    (addClientStream s live).drop (1 + s.playlists.length + s.tracks.length) = live ∧
    (addClientSnapshot s).count SSEFrame.connection = 1 ∧
    (∀ f ∈ addClientSnapshot s, ∀ se : SearchEvent, f ≠ SSEFrame.search_update se) := by
  have hlen : (addClientSnapshot s).length = 1 + s.playlists.length + s.tracks.length := by
    simp [addClientSnapshot]
    omega
  refine ⟨?_, ?_, ?_, ?_⟩
  · rw [addClientStream, ← hlen, List.take_left]
    rfl
  · rw [addClientStream, ← hlen, List.drop_left]
  · have h1 : SSEFrame.connection ∉ s.playlists.map SSEFrame.playlist_update := by simp
    have h2 : SSEFrame.connection ∉ s.tracks.map SSEFrame.track_update := by simp
    rw [addClientSnapshot, List.count_cons_self, List.count_append,
      List.count_eq_zero.mpr h1, List.count_eq_zero.mpr h2]
  · intro f hf se
    rw [addClientSnapshot] at hf
    rcases List.mem_cons.mp hf with rfl | hf2
    · simp
    · rcases List.mem_append.mp hf2 with hf3 | hf3

      · obtain ⟨p, -, rfl⟩ := List.mem_map.mp hf3
        simp
      · obtain ⟨t, -, rfl⟩ := List.mem_map.mp hf3
        simp

/-- Witness for C5 (amended) on the retained-search-only state and one live
frame. -/
theorem snapshot_then_live_witness :
    (addClientStream sC5 [SSEFrame.keepalive]).take 1 = [SSEFrame.connection] ∧
    (addClientStream sC5 [SSEFrame.keepalive]).drop 1 = [SSEFrame.keepalive] ∧
    SSEFrame.connection ≠ SSEFrame.search_update
      { playlist_id := "pl1", total := 3, found := 1, failed := 0,
        current_query := "q", timestamp := 0 } := by
  have h := snapshot_then_live sC5 [SSEFrame.keepalive]
  exact ⟨by simpa using h.1, by simpa using h.2.1,
    h.2.2.2 SSEFrame.connection (by decide)
      { playlist_id := "pl1", total := 3, found := 1, failed := 0,
        current_query := "q", timestamp := 0 }⟩

/-- Events emitted by the aggregator for a playlist all carry its id. -/
theorem recompute_event_pid (p : PlaylistEvent) (tracks : List TrackEvent) (now : Nat) :
    ((recomputePlaylist p tracks now).1).playlist_id = p.playlist_id ∧
    (∀ q, BusEvent.playlist_update q ∈ (recomputePlaylist p tracks now).2 →
      q.playlist_id = p.playlist_id) := by
  unfold recomputePlaylist
  simp only []
  split
  · exact ⟨rfl, by intro q hq; simp at hq⟩
  · split
    · refine ⟨rfl, ?_⟩
      intro q hq
      simp only [List.mem_singleton] at hq
      cases hq
      rfl
    · exact ⟨rfl, by intro q hq; simp at hq⟩

/-- Claim C10: the Stats Aggregator leaves untouched, and emits no update for,
every collection that has no retained track event. -/
theorem aggregator_ignores_trackless (playlists : List PlaylistEvent)
    (tracks : List TrackEvent) (now : Nat) (pid : String)
    (h : tracks.filter (fun t => t.playlist_id == some pid) = []) :
    ((updatePlaylistStats playlists tracks now).1.filter (fun p => p.playlist_id == pid) =
      playlists.filter (fun p => p.playlist_id == pid)) ∧
    (∀ q, BusEvent.playlist_update q ∈ (updatePlaylistStats playlists tracks now).2 →
      q.playlist_id ≠ pid) := by
  have key : ∀ pp : PlaylistEvent, pp.playlist_id = pid →
      recomputePlaylist pp tracks now = (pp, []) := by
    intro pp hp
    have hfe : tracks.filter (fun t => t.playlist_id == some pp.playlist_id) = [] := by
      rw [hp]; exact h
    unfold recomputePlaylist
    simp [hfe]
  induction playlists with
  | nil => exact ⟨rfl, by intro q hq; simp [updatePlaylistStats] at hq⟩
  | cons p rest ih =>
    obtain ⟨ih1, ih2⟩ := ih
    by_cases hp : p.playlist_id = pid
    · constructor
      · show (updatePlaylistStats (p :: rest) tracks now).1.filter _ = _
        unfold updatePlaylistStats
        rw [key p hp]
        simp only [List.filter_cons, hp]
        simp [ih1]
      · intro q hq
        unfold updatePlaylistStats at hq
        rw [key p hp] at hq
        simp only [List.nil_append] at hq
        exact ih2 q hq
    · obtain ⟨hpid, hevs⟩ := recompute_event_pid p tracks now
      constructor
      · unfold updatePlaylistStats
        simp only [List.filter_cons]
        have hppid : (p.playlist_id == pid) = false := by
          simp [hp]
        have hppid2 : (((recomputePlaylist p tracks now).1).playlist_id == pid) = false := by
          rw [hpid]; exact hppid
        simp only [hppid, hppid2, if_neg, Bool.false_eq_true]
        exact ih1
      · intro q hq
        unfold updatePlaylistStats at hq
        rcases List.mem_append.mp hq with hq1 | hq2
        · intro hqp
          exact hp ((hevs q hq1) ▸ hqp)
        · exact ih2 q hq2

/-- Witness for C10 on a one-collection state with no retained track events. -/
theorem aggregator_ignores_trackless_witness :
    ((updatePlaylistStats
        [{ playlist_id := "pl1", playlist_name := "P", status := "downloading",
           total_tracks := 2, found_tracks := 0, failed_tracks := 0,
           completed_tracks := 0, timestamp := 0 }] [] 9).1.filter
        (fun p => p.playlist_id == "pl1") =
      [{ playlist_id := "pl1", playlist_name := "P", status := "downloading",
         total_tracks := 2, found_tracks := 0, failed_tracks := 0,
         completed_tracks := 0, timestamp := 0 }].filter
        (fun p => p.playlist_id == "pl1")) ∧
    (∀ q, BusEvent.playlist_update q ∈ (updatePlaylistStats
        [{ playlist_id := "pl1", playlist_name := "P", status := "downloading",
           total_tracks := 2, found_tracks := 0, failed_tracks := 0,
           completed_tracks := 0, timestamp := 0 }] [] 9).2 →
      q.playlist_id ≠ "pl1") :=
  aggregator_ignores_trackless
    [{ playlist_id := "pl1", playlist_name := "P", status := "downloading",
       total_tracks := 2, found_tracks := 0, failed_tracks := 0,
       completed_tracks := 0, timestamp := 0 }] [] 9 "pl1" rfl

/-- Witness for C9: the never-skipped facts evaluated at concrete capabilities. -/
theorem dummy_store_never_skips_witness :
    Database.downloaded dummyDatabase "t1" = false ∧
    (pendingPlaylistTrackResolve "t1" "P" 1 "f" false false clPEx dummyDatabase
      none).outcome ≠ Outcome.skipped ∧
    ({ outcome := Outcome.failed,
       db := Database.set_failed dummyDatabase "s" "track" "t1",
       events := [failedEvent "t1" "Unknown Track" "Unknown Artist"
                    "Track not available for streaming" none],
       metadataFetches := 1 } : RResult).outcome ≠ Outcome.skipped := by
  have h := dummy_store_never_skips "t1" "s" "track" "P" "f" 1 1 none false false false
    clTEx clPEx
  exact ⟨h.1, h.2.2.2.1, h.2.2.2.2 _ rfl⟩

/-- The lastfm loop emits exactly one SearchEvent per pair. -/
theorem lfmLoop_events_length (client : SClient) (fb : Option SClient) (pid : String)
    (total : Nat) : ∀ (pairs : List (String × String)) (f0 x0 : Nat),
    (lfmLoop client fb pid total f0 x0 pairs).2.length = pairs.length := by
  intro pairs
  induction pairs with
  | nil => intro f0 x0; rfl
  | cons p rest ih =>
    intro f0 x0
    cases hs : (searchTrack client fb (lfmQuery p)).1 with
    | some t => simp [lfmLoop, hs, ih]
    | none => simp [lfmLoop, hs, ih]

/-- Every pair of the list either found a track or did not. -/
theorem countFound_add_countNotFound (client : SClient) (fb : Option SClient) :
    ∀ pairs : List (String × String),
    countFound client fb pairs + countNotFound client fb pairs = pairs.length := by
  intro pairs
  induction pairs with
  | nil => rfl
  | cons p rest ih =>
    cases hs : (searchTrack client fb (lfmQuery p)).1 with
    | some t =>
      simp only [countFound, countNotFound, List.filter_cons, hs] at ih ⊢
      simp only [Option.isSome_some, Option.isNone_some]
      simp only [if_true, Bool.false_eq_true, if_false, List.length_cons]
      omega
    | none =>
      simp only [countFound, countNotFound, List.filter_cons, hs] at ih ⊢
      simp only [Option.isSome_none, Option.isNone_none]
      simp only [if_true, Bool.false_eq_true, if_false, List.length_cons]
      omega

/-- The SearchEvent emitted after the i-th pair carries the running totals over
the first i+1 pairs and the query string of that pair. -/
theorem lfmLoop_events_get (client : SClient) (fb : Option SClient) (pid : String)
    (total : Nat) : ∀ (pairs : List (String × String)) (f0 x0 i : Nat)
    (hi : i < pairs.length),
    ((lfmLoop client fb pid total f0 x0 pairs).2)[i]? =
      some { playlist_id := pid, total := total,
             found := f0 + countFound client fb (pairs.take (i + 1)),
             failed := x0 + countNotFound client fb (pairs.take (i + 1)),
             current_query := lfmQuery (pairs.get ⟨i, hi⟩), timestamp := 0 } := by
  intro pairs
  induction pairs with
  | nil => intro f0 x0 i hi; simp at hi
  | cons p rest ih =>
    intro f0 x0 i hi
    cases hs : (searchTrack client fb (lfmQuery p)).1 with
    | some t =>
      cases i with
      | zero =>
        simp [lfmLoop, hs, countFound, countNotFound, List.filter_cons]
      | succ j =>
        have hj : j < rest.length := by simpa using hi
        have h1 : countFound client fb ((p :: rest).take (j + 1 + 1)) =
            countFound client fb (rest.take (j + 1)) + 1 := by
          simp [List.take_succ_cons, countFound, List.filter_cons, hs]
        have h2 : countNotFound client fb ((p :: rest).take (j + 1 + 1)) =
            countNotFound client fb (rest.take (j + 1)) := by
          simp [List.take_succ_cons, countNotFound, List.filter_cons, hs]
        simp only [lfmLoop, hs, List.getElem?_cons_succ]
        rw [ih (f0 + 1) x0 j hj]
        simp only [h1, h2, Option.some.injEq, SearchEvent.mk.injEq, List.get_cons_succ]
        simp only [true_and, and_true]
        omega
    | none =>
      cases i with
      | zero =>
        simp [lfmLoop, hs, countFound, countNotFound, List.filter_cons]
      | succ j =>
        have hj : j < rest.length := by simpa using hi
        have h1 : countFound client fb ((p :: rest).take (j + 1 + 1)) =
            countFound client fb (rest.take (j + 1)) := by
          simp [List.take_succ_cons, countFound, List.filter_cons, hs]
        have h2 : countNotFound client fb ((p :: rest).take (j + 1 + 1)) =
            countNotFound client fb (rest.take (j + 1)) + 1 := by
          simp [List.take_succ_cons, countNotFound, List.filter_cons, hs]
        simp only [lfmLoop, hs, List.getElem?_cons_succ]
        rw [ih f0 (x0 + 1) j hj]
        simp only [h1, h2, Option.some.injEq, SearchEvent.mk.injEq, List.get_cons_succ]
        simp only [true_and, and_true]
        omega

/-- Claim C6: the search consults the fallback source exactly when the primary
search succeeds with zero results; on a primary no-match with a fallback match
the resulting track is attributed to the fallback client; and after each pair
one SearchEvent is emitted, carrying the running found/failed totals over the
pairs processed so far and the query string of the pair, before the next pair. -/
theorem search_fallback_and_events (client f : SClient) (pid : String)
    (pairs : List (String × String)) :
    (∀ q, (searchTrack client (some f) q).2.2 = true ↔ client.search q = Except.ok []) ∧
    (∀ q t ts, client.search q = Except.ok [] → f.search q = Except.ok (t :: ts) →
      searchTrack client (some f) q = (some t, true, true)) ∧
    (∀ (p : String × String) (rest : List (String × String)) (f0 x0 : Nat)
       (t : String) (ts : List String),
      client.search (lfmQuery p) = Except.ok [] →
      f.search (lfmQuery p) = Except.ok (t :: ts) →
      ((lfmLoop client (some f) pid (p :: rest).length f0 x0 (p :: rest)).1).head? =
        some (t, f)) ∧
    ((lfmLoop client (some f) pid pairs.length 0 0 pairs).2.length = pairs.length ∧
     ∀ i (hi : i < pairs.length),
       ((lfmLoop client (some f) pid pairs.length 0 0 pairs).2)[i]? =
         some { playlist_id := pid, total := pairs.length,
                found := countFound client (some f) (pairs.take (i + 1)),
                failed := countNotFound client (some f) (pairs.take (i + 1)),
                current_query := lfmQuery (pairs.get ⟨i, hi⟩), timestamp := 0 } ∧
       countFound client (some f) (pairs.take (i + 1)) +
         countNotFound client (some f) (pairs.take (i + 1)) = i + 1) := by
  refine ⟨?_, ?_, ?_, ?_, ?_⟩
  · intro q
    cases hq : client.search q with
    | error m => simp [searchTrack, hq]
    | ok ids =>
      cases ids with
      | nil =>
        cases hf2 : f.search q with
        | error m => simp [searchTrack, hq, hf2]
        | ok ids2 => cases ids2 <;> simp [searchTrack, hq, hf2]
      | cons t ts => simp [searchTrack, hq]
  · intro q t ts hq hf2
    simp [searchTrack, hq, hf2]
  · intro p rest f0 x0 t ts hq hf2
    have hst : searchTrack client (some f) (lfmQuery p) = (some t, true, true) := by
      simp [searchTrack, hq, hf2]
    simp [lfmLoop, hst]
  · exact lfmLoop_events_length client (some f) pid pairs.length pairs 0 0
  · intro i hi
    refine ⟨?_, ?_⟩
    · have h := lfmLoop_events_get client (some f) pid pairs.length pairs 0 0 i hi
      simpa using h
    · have h1 := countFound_add_countNotFound client (some f) (pairs.take (i + 1))
      rw [List.length_take] at h1
      have h2 : min (i + 1) pairs.length = i + 1 := by omega
      rw [h2] at h1
      exact h1

/-- The primary client used by the witness of claim C6: zero results always. -/
def cB : SClient := { source := "primary", search := fun _ => Except.ok [] }

/-- The fallback client used by the witness of claim C6: one match always. -/
def fB : SClient := { source := "fallback", search := fun _ => Except.ok ["fid"] }

/-- Witness for C6: the scenario-B shaped instance — primary no-match, fallback
one match — attributed to the fallback client, with the expected SearchEvent. -/
theorem search_fallback_and_events_witness :
    searchTrack cB (some fB) "Song X Artist Y" = (some "fid", true, true) ∧
    ((lfmLoop cB (some fB) "pl" 1 0 0 [("Song X", "Artist Y")]).1).head? =
      some ("fid", fB) ∧
    ((lfmLoop cB (some fB) "pl" 1 0 0 [("Song X", "Artist Y")]).2)[0]? =
      some { playlist_id := "pl", total := 1, found := 1, failed := 0,
             current_query := "Song X Artist Y", timestamp := 0 } := by
  have h := search_fallback_and_events cB fB "pl" [("Song X", "Artist Y")]
  refine ⟨h.2.1 "Song X Artist Y" "fid" [] rfl rfl, ?_, ?_⟩
  · exact h.2.2.1 ("Song X", "Artist Y") [] 0 0 "fid" [] rfl rfl
  · exact ((h.2.2.2.2 0 (by decide)).1).trans rfl

end RadioStation
